import Mathlib

/-!
Verification of pybindlib's path handling and CLI pipeline.

The Python sources embedded here are `src/pybindlib/paths.py` and
`src/pybindlib/cli.py`.  Strings are modelled as `List Char`; Python's
single-character `str.replace` is a character-wise map; `os.path` helpers
are embedded from their posixpath definitions (on POSIX, `os.sep = '/'`
and `os.altsep = None`).
-/

namespace PyBindLib

/-- Whitespace characters stripped by Python's default `str.strip` /
`str.rstrip` (ASCII subset; Python additionally strips some Unicode
spaces, which no definition here inspects). -/
def pyIsSpace (c : Char) : Bool :=
  c = ' ' || c = '\t' || c = '\n' || c = '\r' || c = '\x0b' || c = '\x0c'

/-- Python `s.strip()` on the ASCII whitespace set. -/
def pyStrip (s : List Char) : List Char :=
  ((s.dropWhile pyIsSpace).reverse.dropWhile pyIsSpace).reverse

/-- Python `s.rstrip()` on the ASCII whitespace set. -/
def pyRstrip (s : List Char) : List Char :=
  (s.reverse.dropWhile pyIsSpace).reverse

/-- Python `s.replace(old, new)` for one-character `old`/`new`. -/
def replaceChar (old new : Char) (s : List Char) : List Char :=
  s.map fun c => if c = old then new else c

/-- posixpath `os.path.basename`: the suffix after the last `'/'`. -/
def basename (p : List Char) : List Char :=
  (p.reverse.takeWhile (fun c => ¬ c = '/')).reverse

/-- Truthiness of `library_name and library_name.strip()` in
`generate_output_filename` (src/pybindlib/paths.py line 36): `None` and
the empty string are falsy, and `strip()` of a blank string is falsy. -/
def nameIsUsable : Option (List Char) → Bool
  | none => false
  | some s => (¬ s = []) && (¬ pyStrip s = [])

/-- The character-substitution step of `generate_output_filename`
(src/pybindlib/paths.py lines 42-44): `base.replace("-", "_")`, then
`.replace(".", "_")`, then `.replace("/", "_")`. -/
def sanitize_identifier (s : List Char) : List Char :=
  replaceChar '/' '_' (replaceChar '.' '_' (replaceChar '-' '_' s))

/-- `generate_output_filename` from src/pybindlib/paths.py lines 16-46:
use the library name when `library_name and library_name.strip()` is
truthy, else `os.path.basename(fallback_path)`; substitute characters;
append `".py"`. -/
def generate_output_filename
    (library_name : Option (List Char)) (fallback_path : List Char) :
    List Char :=
  let base :=
    if nameIsUsable library_name then library_name.getD []
    else basename fallback_path
  sanitize_identifier base ++ ".py".toList

/-- Artifact-naming rule as the spec words it (§6): base is the library's
embedded name if present and non-blank, else the input filename; every
`'-'`, `'.'` and path-separator character is replaced with `'_'`; a fixed
extension is appended.  Stated from the spec, to be compared with
`generate_output_filename`, which is embedded from the source. -/
def specArtifactName
    (library_name : Option (List Char)) (input_path : List Char) :
    List Char :=
  let base :=
    match library_name with
    | some s => if pyStrip s = [] then basename input_path else s
    | none => basename input_path
  (base.map fun c => if c = '-' || c = '.' || c = '/' then '_' else c)
    ++ ".py".toList

theorem pyStrip_nil : pyStrip [] = [] := rfl

theorem sanitize_eq_map (s : List Char) :
    sanitize_identifier s =
      s.map (fun c => if c = '-' || c = '.' || c = '/' then '_' else c) := by
  simp only [sanitize_identifier, replaceChar, List.map_map]
  apply List.map_congr_left
  intro c _
  simp only [Function.comp]
  by_cases h1 : c = '-'
  · simp [h1]
  · by_cases h2 : c = '.'
    · simp [h1, h2]
    · by_cases h3 : c = '/'
      · simp [h1, h2, h3]
      · simp [h1, h2, h3]

/-- C4: for every library name and fallback path,
`generate_output_filename` agrees with the spec's artifact-naming rule
(embedded-name-if-non-blank, else basename; `'-'`, `'.'`, `'/'` become
`'_'`; fixed `".py"` extension appended), and the name `libfoo.so.2`
yields `libfoo_so_2.py`. -/
theorem output_filename_matches_naming_rule :
    (∀ (library_name : Option (List Char)) (path : List Char),
      generate_output_filename library_name path =
        specArtifactName library_name path) ∧
    generate_output_filename (some "libfoo.so.2".toList)
        "/usr/lib/libfoo.so.2".toList = "libfoo_so_2.py".toList := by
  constructor
  · intro library_name path
    match library_name with
    | none =>
        simp [generate_output_filename, specArtifactName, nameIsUsable,
          sanitize_eq_map]
    | some s =>
        by_cases hs : pyStrip s = []
        · have hbase : nameIsUsable (some s) = false := by
            simp [nameIsUsable, hs]
          simp [generate_output_filename, specArtifactName, hbase, hs,
            sanitize_eq_map]
        · have hne : ¬ s = [] := by
            intro h
            exact hs (by simp [h, pyStrip_nil])
          have hbase : nameIsUsable (some s) = true := by
            simp [nameIsUsable, hs, hne]
          simp [generate_output_filename, specArtifactName, hbase, hs,
            sanitize_eq_map]
  · decide

/-- C5: the name-sanitization step of artifact naming is idempotent:
sanitizing an already-sanitized name yields the same name. -/
theorem sanitize_identifier_idempotent (s : List Char) :
    sanitize_identifier (sanitize_identifier s) = sanitize_identifier s := by
  rw [sanitize_eq_map, sanitize_eq_map, List.map_map]
  apply List.map_congr_left
  intro c _
  simp only [Function.comp]
  by_cases h1 : c = '-'
  · simp [h1]
  · by_cases h2 : c = '.'
    · simp [h1, h2]
    · by_cases h3 : c = '/'
      · simp [h1, h2, h3]
      · simp [h1, h2, h3]

/-- Modelled from the spec: `QualityScore` lives in `pybindlib/debug_info.py`,
which is not under src/; §3 gives its fields `base_score` and `size_score`
(its constructor call is visible at src/pybindlib/cli.py line 179). -/
structure QualityScore where
  base_score : Nat
  size_score : Nat
deriving DecidableEq

/-- Modelled from the spec: the §3 total order on `QualityScore` — compare
`base_score`, then `size_score`. -/
def QualityScore.ranksBelow (a b : QualityScore) : Bool :=
  a.base_score < b.base_score ||
    (a.base_score = b.base_score && a.size_score < b.size_score)

/-- Modelled from the spec: `TypedefInfo` lives in `pybindlib/debug_info.py`,
which is not under src/; §3 gives its fields `representation`,
`quality_score` and free-text `description` (the constructor call at
src/pybindlib/cli.py lines 177-181 shows the same fields). -/
structure TypedefInfo where
  representation : String
  quality_score : QualityScore
  description : String
deriving DecidableEq

/-- The `TypedefInfo` recorded for every function-pointer typedef name found
by header-text scanning, from src/pybindlib/cli.py lines 177-181. -/
def headerFnTypedefInfo : TypedefInfo :=
  { representation := "c_void_p"
    quality_score := { base_score := 4, size_score := 1 }
    description := "pointer to function type" }

/-- The loop of src/pybindlib/cli.py lines 175-182: for each header-derived
function-pointer typedef name, add `headerFnTypedefInfo` under that name
when the typedef map has no entry of that name (Python dict insertion adds
new keys at the end). -/
def addFnTypedefs (all_typedefs : List (String × TypedefInfo)) :
    List String → List (String × TypedefInfo)
  | [] => all_typedefs
  | n :: rest =>
      addFnTypedefs
        (if (all_typedefs.lookup n).isSome then all_typedefs
         else all_typedefs ++ [(n, headerFnTypedefInfo)]) rest

/-- The typedef filtering/merging step of src/pybindlib/cli.py lines
164-183: `--skip-typedefs` empties the map; otherwise, when headers were
supplied, header-derived function-pointer typedef names are added as a
fallback. -/
def filterTypedefs (skip_typedefs headers_given : Bool)
    (all_typedefs : List (String × TypedefInfo))
    (fn_typedefs : List String) : List (String × TypedefInfo) :=
  if skip_typedefs then []
  else if headers_given then addFnTypedefs all_typedefs fn_typedefs
  else all_typedefs

theorem lookup_append (n : String) (l1 l2 : List (String × TypedefInfo)) :
    (l1 ++ l2).lookup n =
      match l1.lookup n with
      | some v => some v
      | none => l2.lookup n := by
  induction l1 with
  | nil => simp [List.lookup]
  | cons kv rest ih =>
      by_cases h : n = kv.1
      · simp [List.lookup, h]
      · have hb : (n == kv.1) = false := by
          simp [h]
        simp [List.lookup, hb, ih]

theorem addFnTypedefs_cons (all_typedefs : List (String × TypedefInfo))
    (m : String) (rest : List String) :
    addFnTypedefs all_typedefs (m :: rest) =
      addFnTypedefs
        (if (all_typedefs.lookup m).isSome then all_typedefs
         else all_typedefs ++ [(m, headerFnTypedefInfo)]) rest := rfl

theorem addFnTypedefs_lookup_some (fn : List String)
    (all_typedefs : List (String × TypedefInfo)) (n : String)
    (h : (all_typedefs.lookup n).isSome = true) :
    (addFnTypedefs all_typedefs fn).lookup n = all_typedefs.lookup n := by
  induction fn generalizing all_typedefs with
  | nil => rfl
  | cons m rest ih =>
      rw [addFnTypedefs_cons]
      by_cases hm : (all_typedefs.lookup m).isSome = true
      · rw [if_pos hm]
        exact ih all_typedefs h
      · rw [if_neg hm]
        have hkeep : (all_typedefs ++ [(m, headerFnTypedefInfo)]).lookup n
            = all_typedefs.lookup n := by
          rw [lookup_append]
          cases hl : all_typedefs.lookup n with
          | some v => rfl
          | none => rw [hl] at h; simp at h
        rw [ih _ (by rw [hkeep]; exact h), hkeep]

theorem addFnTypedefs_lookup_mem (fn : List String)
    (all_typedefs : List (String × TypedefInfo)) (n : String)
    (hmem : n ∈ fn) (h : all_typedefs.lookup n = none) :
    (addFnTypedefs all_typedefs fn).lookup n = some headerFnTypedefInfo := by
  induction fn generalizing all_typedefs with
  | nil => cases hmem
  | cons m rest ih =>
      rw [addFnTypedefs_cons]
      by_cases heq : n = m
      · subst heq
        rw [if_neg (by simp [h])]
        have hl2 : (all_typedefs ++ [(n, headerFnTypedefInfo)]).lookup n
            = some headerFnTypedefInfo := by
          rw [lookup_append, h]
          simp [List.lookup]
        rw [addFnTypedefs_lookup_some rest _ n (by rw [hl2]; rfl), hl2]
      · have hmem2 : n ∈ rest := by
          cases hmem with
          | head => exact absurd rfl heq
          | tail _ hr => exact hr
        by_cases hm : (all_typedefs.lookup m).isSome = true
        · rw [if_pos hm]
          exact ih all_typedefs hmem2 h
        · rw [if_neg hm]
          apply ih _ hmem2
          rw [lookup_append, h]
          have hb : (n == m) = false := by simp [heq]
          simp [List.lookup, hb]

theorem addFnTypedefs_lookup_not_mem (fn : List String)
    (all_typedefs : List (String × TypedefInfo)) (n : String)
    (hmem : ¬ n ∈ fn) :
    (addFnTypedefs all_typedefs fn).lookup n = all_typedefs.lookup n := by
  induction fn generalizing all_typedefs with
  | nil => rfl
  | cons m rest ih =>
      have hne : ¬ n = m := fun h => hmem (h ▸ List.mem_cons_self m rest)
      have hrest : ¬ n ∈ rest := fun h => hmem (List.mem_cons_of_mem m h)
      rw [addFnTypedefs_cons]
      by_cases hm : (all_typedefs.lookup m).isSome = true
      · rw [if_pos hm]
        exact ih all_typedefs hrest
      · rw [if_neg hm]
        rw [ih _ hrest, lookup_append]
        have hb : (n == m) = false := by simp [hne]
        cases hl : all_typedefs.lookup n with
        | some v => rfl
        | none => simp [List.lookup, hb]

/-- C2: a header-derived function-pointer typedef name ends up in the final
typedef map exactly when the debug-derived map lacks it and typedefs were
not skipped; a debug-derived entry of the same name is never overwritten;
names not found by header scanning are untouched; and with
`--skip-typedefs` the final map is empty even when headers were given. -/
theorem header_typedef_merge (all_typedefs : List (String × TypedefInfo))
    (fn_typedefs : List String) (headers_given : Bool) :
    filterTypedefs true headers_given all_typedefs fn_typedefs = [] ∧
    (∀ n, n ∈ fn_typedefs →
      (filterTypedefs false true all_typedefs fn_typedefs).lookup n =
        some ((all_typedefs.lookup n).getD headerFnTypedefInfo)) ∧
    (∀ n, ¬ n ∈ fn_typedefs →
      (filterTypedefs false true all_typedefs fn_typedefs).lookup n =
        all_typedefs.lookup n) := by
  have hft : filterTypedefs false true all_typedefs fn_typedefs =
      addFnTypedefs all_typedefs fn_typedefs := rfl
  refine ⟨rfl, ?_, ?_⟩
  · intro n hmem
    rw [hft]
    cases hl : all_typedefs.lookup n with
    | some v =>
        rw [addFnTypedefs_lookup_some _ _ _ (by simp [hl]), hl]
        rfl
    | none =>
        rw [addFnTypedefs_lookup_mem _ _ _ hmem hl]
        rfl
  · intro n hmem
    rw [hft]
    exact addFnTypedefs_lookup_not_mem _ _ _ hmem

/-- A debug-derived typedef used by concrete witnesses. -/
def sampleDwarfInfo : TypedefInfo :=
  { representation := "c_int"
    quality_score := { base_score := 3, size_score := 1 }
    description := "primitive type" }

/-- Witness for C2 at a concrete map `{A ↦ sampleDwarfInfo}` and scanned
names `[A, B]`: skipping empties the map, `A` keeps its debug entry, `B`
gains the header fallback entry, `C` stays absent. -/
theorem header_typedef_merge_witness :
    filterTypedefs true true [("A", sampleDwarfInfo)] ["A", "B"] = [] ∧
    (filterTypedefs false true [("A", sampleDwarfInfo)] ["A", "B"]).lookup
        "A" = some sampleDwarfInfo ∧
    (filterTypedefs false true [("A", sampleDwarfInfo)] ["A", "B"]).lookup
        "B" = some headerFnTypedefInfo ∧
    (filterTypedefs false true [("A", sampleDwarfInfo)] ["A", "B"]).lookup
        "C" = none := by
  obtain ⟨h1, h2, h3⟩ :=
    header_typedef_merge [("A", sampleDwarfInfo)] ["A", "B"] true
  refine ⟨h1, ?_, ?_, ?_⟩
  · rw [h2 "A" (by decide)]
    rfl
  · rw [h2 "B" (by decide)]
    rfl
  · rw [h3 "C" (by decide)]
    rfl

/-- C3 counterexample: the score the code attaches to header-derived
function-pointer typedefs has `base_score = 4`, which is not on the §3
rank scale (opaque=0, pointer-only=2, primitive=3, resolved-structure=5),
so it ranks above debug-derived primitives, and its description is the
fixed string "pointer to function type", which does not mention
header-text scanning. -/
theorem header_typedef_score_off_scale :
    headerFnTypedefInfo.quality_score.base_score = 4 ∧
    ¬ headerFnTypedefInfo.quality_score.base_score ∈ ([0, 2, 3, 5] : List Nat) ∧
    QualityScore.ranksBelow { base_score := 3, size_score := 1 }
      headerFnTypedefInfo.quality_score = true ∧
    headerFnTypedefInfo.description = "pointer to function type" := by
  refine ⟨rfl, by decide, by decide, rfl⟩

/-- C3 (amended): every typedef added by header-text function-pointer
scanning is the fixed record `headerFnTypedefInfo` — representation
`c_void_p` (opaque pointer), `QualityScore` with `base_score = 4` and
`size_score = 1` (ranking below a resolved structure's base score 5, so a
debug-derived resolved structure always outranks it), description
"pointer to function type" — and every entry of the merged map is either
a debug-derived entry or this fixed record. -/
theorem header_typedef_recorded_info :
    headerFnTypedefInfo.representation = "c_void_p" ∧
    headerFnTypedefInfo.quality_score = { base_score := 4, size_score := 1 } ∧
    QualityScore.ranksBelow headerFnTypedefInfo.quality_score
      { base_score := 5, size_score := 0 } = true ∧
    headerFnTypedefInfo.description = "pointer to function type" ∧
    (∀ (all_typedefs : List (String × TypedefInfo)) (fn : List String)
      (n : String),
      (addFnTypedefs all_typedefs fn).lookup n = all_typedefs.lookup n ∨
      (addFnTypedefs all_typedefs fn).lookup n = some headerFnTypedefInfo) := by
  refine ⟨rfl, rfl, by decide, rfl, ?_⟩
  intro all_typedefs fn n
  by_cases hs : (all_typedefs.lookup n).isSome = true
  · exact Or.inl (addFnTypedefs_lookup_some fn all_typedefs n hs)
  · have hl : all_typedefs.lookup n = none := by
      cases h : all_typedefs.lookup n with
      | some v => rw [h] at hs; simp at hs
      | none => rfl
    by_cases hmem : n ∈ fn
    · exact Or.inr (addFnTypedefs_lookup_mem fn all_typedefs n hmem hl)
    · exact Or.inl (addFnTypedefs_lookup_not_mem fn all_typedefs n hmem)

/-- posixpath `os.path.dirname`, first half: the prefix of `p` up to and
including the last `'/'`; empty when `p` has no `'/'`. -/
def upToLastSlash (p : List Char) : List Char :=
  (p.reverse.dropWhile (fun c => ¬ c = '/')).reverse

/-- Python `head.rstrip('/')`. -/
def rstripSlash (s : List Char) : List Char :=
  (s.reverse.dropWhile (fun c => c = '/')).reverse

/-- posixpath `os.path.dirname`: take the prefix up to the last `'/'`; if
that prefix is non-empty and not all slashes, strip its trailing slashes. -/
def dirname (p : List Char) : List Char :=
  if (! (upToLastSlash p).isEmpty) &&
      (! (upToLastSlash p).all (fun c => c = '/')) then
    rstripSlash (upToLastSlash p)
  else upToLastSlash p

/-- posixpath `os.path.join` for two components: an absolute second
component wins; otherwise insert `'/'` unless the first component is empty
or already ends in `'/'`. -/
def joinPath (a b : List Char) : List Char :=
  if b.head? = some '/' then b
  else if a = [] || a.getLast? = some '/' then a ++ b
  else a ++ '/' :: b

/-- Abstraction of the filesystem queries the pipeline makes:
`os.path.isdir` and `os.path.exists`. -/
structure FileSystem where
  isDir : List Char → Bool
  pathExists : List Char → Bool

/-- Result of the output-path determination step: the output filename, and
the parent directory handed to `os.makedirs` when one is created. -/
structure OutputDecision where
  output_filename : List Char
  created_parent : Option (List Char)
deriving DecidableEq

/-- Output-path determination from src/pybindlib/cli.py lines 185-216: a
directory destination gets the generated filename joined into it; any
other destination is used directly, and missing parent directories are
created only when the path contains a separator (`os.sep = '/'`;
`os.altsep` is `None` on POSIX) and `os.path.dirname` of it is non-empty
and does not exist. -/
def determine_output (fs : FileSystem) (output_arg : Option (List Char))
    (library_name : Option (List Char)) (library_path : List Char) :
    OutputDecision :=
  match output_arg with
  | none =>
      { output_filename := generate_output_filename library_name library_path
        created_parent := none }
  | some out =>
      if fs.isDir out then
        { output_filename :=
            joinPath out (generate_output_filename library_name library_path)
          created_parent := none }
      else if out.contains '/' then
        if (! (dirname out).isEmpty) && (! fs.pathExists (dirname out)) then
          { output_filename := out, created_parent := some (dirname out) }
        else
          { output_filename := out, created_parent := none }
      else
        { output_filename := out, created_parent := none }

theorem dropWhile_ne_nil_of_exists {p : Char → Bool} {l : List Char}
    (h : ∃ x ∈ l, p x = false) : ¬ l.dropWhile p = [] := by
  intro hnil
  obtain ⟨x, hx, hpx⟩ := h
  have := (List.dropWhile_eq_nil_iff).1 hnil x hx
  rw [hpx] at this
  exact Bool.false_ne_true this

theorem dirname_ne_nil_of_contains {p : List Char}
    (h : p.contains '/' = true) : ¬ dirname p = [] := by
  have hmem : '/' ∈ p := by
    simpa [List.contains] using h
  have hhead : ¬ upToLastSlash p = [] := by
    unfold upToLastSlash
    intro hc
    have h0 : p.reverse.dropWhile (fun c => ¬ c = '/') = [] := by
      simpa using hc
    apply dropWhile_ne_nil_of_exists _ h0
    exact ⟨'/', by simpa using hmem, by simp⟩
  have hheadb : (upToLastSlash p).isEmpty = false := by
    cases hd : upToLastSlash p with
    | nil => exact absurd hd hhead
    | cons a l => rfl
  unfold dirname
  by_cases hall : (upToLastSlash p).all (fun c => c = '/') = true
  · rw [if_neg (by rw [hheadb, hall]; simp)]
    exact hhead
  · have hallf : (upToLastSlash p).all (fun c => c = '/') = false := by
      cases hb : (upToLastSlash p).all (fun c => c = '/') with
      | true => exact absurd hb hall
      | false => rfl
    rw [if_pos (by rw [hheadb, hallf]; rfl)]
    obtain ⟨x, hx, hpx⟩ : ∃ x ∈ upToLastSlash p, ¬ x = '/' := by
      by_contra hno
      push_neg at hno
      exact hall (List.all_eq_true.2 fun c hc => by simp [hno c hc])
    unfold rstripSlash
    intro hc
    have h0 : (upToLastSlash p).reverse.dropWhile (fun c => c = '/') = [] := by
      simpa using hc
    apply dropWhile_ne_nil_of_exists _ h0
    exact ⟨x, by simpa using hx, by simp [hpx]⟩

/-- C6: with one library and an explicit destination, a directory
destination receives the artifact under the naming rule inside it; any
other destination is used directly as the output file path, and a parent
directory is created exactly when the destination contains a path
separator and its `dirname` does not yet exist. -/
theorem single_library_output (fs : FileSystem) (dest : List Char)
    (library_name : Option (List Char)) (library_path : List Char) :
    (fs.isDir dest = true →
      determine_output fs (some dest) library_name library_path =
        { output_filename :=
            joinPath dest (generate_output_filename library_name library_path)
          created_parent := none }) ∧
    (fs.isDir dest = false →
      (determine_output fs (some dest) library_name library_path).output_filename
          = dest ∧
      ((determine_output fs (some dest) library_name library_path).created_parent
          = some (dirname dest) ↔
        dest.contains '/' = true ∧ fs.pathExists (dirname dest) = false) ∧
      ((determine_output fs (some dest) library_name library_path).created_parent
          = none ↔
        ¬ (dest.contains '/' = true ∧ fs.pathExists (dirname dest) = false))) := by
  have hunfold : determine_output fs (some dest) library_name library_path =
      if fs.isDir dest then
        { output_filename :=
            joinPath dest (generate_output_filename library_name library_path)
          created_parent := none }
      else if dest.contains '/' then
        if (! (dirname dest).isEmpty) && (! fs.pathExists (dirname dest)) then
          { output_filename := dest, created_parent := some (dirname dest) }
        else
          { output_filename := dest, created_parent := none }
      else
        { output_filename := dest, created_parent := none } := rfl
  constructor
  · intro hdir
    rw [hunfold, if_pos hdir]
  · intro hndir
    rw [hunfold, if_neg (by simp [hndir])]
    by_cases hsep : dest.contains '/' = true
    · rw [if_pos hsep]
      have hmem2 : '/' ∈ dest := by
        simpa [List.contains] using hsep
      have hdn := dirname_ne_nil_of_contains hsep
      have hdnb : (dirname dest).isEmpty = false := by
        cases hd : dirname dest with
        | nil => exact absurd hd hdn
        | cons a l => rfl
      by_cases hex : fs.pathExists (dirname dest) = true
      · rw [if_neg (by rw [hdnb, hex]; simp)]
        refine ⟨rfl, ?_, ?_⟩
        · simp [hex]
        · simp [hex]
      · have hexf : fs.pathExists (dirname dest) = false := by
          cases hb : fs.pathExists (dirname dest) with
          | true => exact absurd hb hex
          | false => rfl
        rw [if_pos (by rw [hdnb, hexf]; rfl)]
        refine ⟨rfl, ?_, ?_⟩
        · simp [hmem2, hexf]
        · simp [hmem2, hexf]
    · have hsepf : dest.contains '/' = false := by
        cases hb : dest.contains '/' with
        | true => exact absurd hb hsep
        | false => rfl
      have hnmem : ¬ '/' ∈ dest := by
        intro hm
        exact hsep (by simpa [List.contains] using hm)
      rw [if_neg hsep]
      refine ⟨rfl, ?_, ?_⟩
      · simp [hnmem]
      · simp [hnmem]

/-- Concrete filesystem for witnesses: only the directory `out` exists. -/
def sampleFS : FileSystem :=
  { isDir := fun p => p = "out".toList
    pathExists := fun p => p = "out".toList }

/-- Witness for C6: with the directory destination `out`, the artifact for
`libfoo.so.2` lands at `out/libfoo_so_2.py`; with the non-directory
destination `sub/bindings.py`, the path is used directly and the missing
parent `sub` is created. -/
theorem single_library_output_witness :
    (determine_output sampleFS (some "out".toList)
        (some "libfoo.so.2".toList) "/usr/lib/libfoo.so.2".toList =
      { output_filename :=
          joinPath "out".toList
            (generate_output_filename (some "libfoo.so.2".toList)
              "/usr/lib/libfoo.so.2".toList)
        created_parent := none }) ∧
    ((determine_output sampleFS (some "sub/bindings.py".toList)
        (some "libfoo.so.2".toList) "/usr/lib/libfoo.so.2".toList).output_filename
        = "sub/bindings.py".toList) ∧
    ((determine_output sampleFS (some "sub/bindings.py".toList)
        (some "libfoo.so.2".toList) "/usr/lib/libfoo.so.2".toList).created_parent
        = some (dirname "sub/bindings.py".toList)) := by
  have h1 := (single_library_output sampleFS "out".toList
    (some "libfoo.so.2".toList) "/usr/lib/libfoo.so.2".toList).1 (by decide)
  have h2 := (single_library_output sampleFS "sub/bindings.py".toList
    (some "libfoo.so.2".toList) "/usr/lib/libfoo.so.2".toList).2 (by decide)
  exact ⟨h1, h2.1, h2.2.1.mpr ⟨by decide, by decide⟩⟩

/-- Error taxonomy of spec §7 restricted to the errors the claims touch.
`debugInfoUnavailable` is a warning in the spec; it appears here so warning
lists can carry it. -/
inductive PipelineError where
  | libraryNotFound
  | debugInfoUnavailable
  | outputPathConflict
deriving DecidableEq

/-- Modelled from the spec: `DebugFile` (§3) lives in
`pybindlib/debug_info.py`, which is not under src/. -/
structure DebugFile where
  file_path : List Char
deriving DecidableEq

/-- Modelled from the spec: `DebugFileSet` (§3) lives in
`pybindlib/debug_info.py`, which is not under src/; with no debug data it
is returned empty. -/
structure DebugFileSet where
  main_file : Option DebugFile
  auxiliary_file : Option DebugFile
deriving DecidableEq

/-- Derived predicate `has_auxiliary()` of spec §3. -/
def DebugFileSet.has_auxiliary (d : DebugFileSet) : Bool :=
  d.auxiliary_file.isSome

/-- Modelled from the spec: `StructureInfo` (§3) lives in
`pybindlib/debug_info.py`, which is not under src/. -/
structure StructureInfo where
  fields : List (String × String × Nat)
  byte_size : Option Nat
deriving DecidableEq

/-- Observable facts about the binary image a run analyzes, consumed by the
modelled resolver. -/
structure LibraryImage where
  parseable : Bool
  library_name : Option (List Char)
  debugPresent : Bool
  exported_functions : List String
deriving DecidableEq

/-- Result tuple of `load_library_and_debug_info`, plus the warnings it
signals. -/
structure LoadResult where
  debug_files : DebugFileSet
  library_name : Option (List Char)
  exported_functions : List String
  warnings : List PipelineError
deriving DecidableEq

/-- Modelled from the spec: `load_library_and_debug_info` lives in
`pybindlib/debug_info.py`, which is not under src/.  Spec §4.1: an
unopenable image fails with `LibraryNotFound`; when no debug data is found
it returns an empty `DebugFileSet`, the exported-function list, and
signals `DebugInfoUnavailable` as a warning, not a fatal error. -/
def load_library_and_debug_info (img : LibraryImage) (path : List Char) :
    Except PipelineError LoadResult :=
  if img.parseable = false then
    .error .libraryNotFound
  else if img.debugPresent then
    .ok { debug_files :=
            { main_file := some { file_path := path }, auxiliary_file := none }
          library_name := img.library_name
          exported_functions := img.exported_functions
          warnings := [] }
  else
    .ok { debug_files := { main_file := none, auxiliary_file := none }
          library_name := img.library_name
          exported_functions := img.exported_functions
          warnings := [.debugInfoUnavailable] }

/-- Modelled from the spec: `collect_all_structures_and_typedefs` lives in
`pybindlib/debug_info.py`, which is not under src/.  Spec §4.2 walks the
compilation units of `main_file`, then `auxiliary_file`; with an empty
`DebugFileSet` there is nothing to walk and both maps are empty.
`collectFrom` abstracts the walk over actually present debug files. -/
def collect_all_structures_and_typedefs
    (collectFrom : DebugFile → Option DebugFile →
      List (String × StructureInfo) × List (String × TypedefInfo))
    (dfs : DebugFileSet) :
    List (String × StructureInfo) × List (String × TypedefInfo) :=
  match dfs.main_file with
  | none => ([], [])
  | some f => collectFrom f dfs.auxiliary_file

/-- The command-line configuration fields of `parse_arguments`
(src/pybindlib/cli.py lines 32-108) that the pipeline logic reads: one
positional `library_path`, an optional `--output`, `--skip-typedefs`, and
whether `--headers` was given. -/
structure Args where
  library_path : List Char
  output : Option (List Char)
  skip_typedefs : Bool
  headers_given : Bool
deriving DecidableEq

/-- Record of one call to `generate_python_module` (the artifact written;
`generate_python_module` itself lives in `pybindlib/generator.py`, not
under src/ — spec §4.4 says it emits one artifact whose content covers the
structures, typedefs and exported-function declarations passed in). -/
structure Artifact where
  filename : List Char
  structures : List (String × StructureInfo)
  typedefs : List (String × TypedefInfo)
  functions : List String
deriving DecidableEq

/-- Everything external the pipeline consults: the filesystem, the binary
image, the debug-information walk, and the function-pointer typedef names
that `parse_function_pointer_typedefs` (pybindlib/preprocessor.py, not
under src/; spec §4.3 step 2) finds in the supplied headers. -/
structure PipelineEnv where
  fs : FileSystem
  image : LibraryImage
  collectFrom : DebugFile → Option DebugFile →
    List (String × StructureInfo) × List (String × TypedefInfo)
  header_fn_typedefs : List String

/-- Outcome of a successful run: warnings signalled and artifacts written. -/
structure PipelineResult where
  warnings : List PipelineError
  artifacts : List Artifact
deriving DecidableEq

/-- `run_generation_pipeline` from src/pybindlib/cli.py lines 111-246:
load, collect, filter/merge typedefs (lines 164-183), determine the output
path (lines 185-216), and generate exactly one module. -/
def run_generation_pipeline (env : PipelineEnv) (args : Args) :
    Except PipelineError PipelineResult :=
  match load_library_and_debug_info env.image args.library_path with
  | .error e => .error e
  | .ok lr =>
      let collected := collect_all_structures_and_typedefs env.collectFrom
        lr.debug_files
      let fn_typedefs :=
        if args.headers_given then env.header_fn_typedefs else []
      let final_typedefs := filterTypedefs args.skip_typedefs
        args.headers_given collected.2 fn_typedefs
      let dec := determine_output env.fs args.output lr.library_name
        args.library_path
      .ok { warnings := lr.warnings
            artifacts := [{ filename := dec.output_filename
                            structures := collected.1
                            typedefs := final_typedefs
                            functions := lr.exported_functions }] }

/-- Number of artifacts a run writes, `none` when the run fails. -/
def artifactCount (env : PipelineEnv) (args : Args) : Option Nat :=
  match run_generation_pipeline env args with
  | .ok r => some r.artifacts.length
  | .error _ => none

/-- Whether a run fails with `outputPathConflict`. -/
def failsWithOutputPathConflict (env : PipelineEnv) (args : Args) : Bool :=
  match run_generation_pipeline env args with
  | .error .outputPathConflict => true
  | _ => false

/-- C1: the pipeline in src accepts a single library path and, whenever it
succeeds, writes exactly one artifact; no run ever fails with
`outputPathConflict` — there is no multi-library branch at all, contrary
to the claimed N-artifact / `OutputPathConflict` behavior exercised by the
repository's own tests via `args.library_paths`. -/
theorem pipeline_always_one_artifact (env : PipelineEnv) (args : Args) :
    artifactCount env args =
      (if env.image.parseable then some 1 else none) ∧
    failsWithOutputPathConflict env args = false := by
  unfold artifactCount failsWithOutputPathConflict run_generation_pipeline
    load_library_and_debug_info
  cases hp : env.image.parseable with
  | false => simp [hp]
  | true =>
      cases hd : env.image.debugPresent with
      | false => simp [hp, hd]
      | true => simp [hp, hd]

/-- C7: for a parseable image with no debug data at all, the run succeeds,
signals `debugInfoUnavailable` as its only warning, proceeds with the
image's exported-function list and empty structure and typedef maps, and
still writes one (functions-only) artifact at the determined output path. -/
theorem no_debug_degrades_gracefully (env : PipelineEnv) (args : Args)
    (hp : env.image.parseable = true)
    (hd : env.image.debugPresent = false)
    (hh : args.headers_given = false)
    (hs : args.skip_typedefs = false) :
    run_generation_pipeline env args =
      .ok { warnings := [PipelineError.debugInfoUnavailable]
            artifacts :=
              [{ filename :=
                   (determine_output env.fs args.output env.image.library_name
                     args.library_path).output_filename
                 structures := []
                 typedefs := []
                 functions := env.image.exported_functions }] } := by
  unfold run_generation_pipeline load_library_and_debug_info
  simp [hp, hd, hh, hs, collect_all_structures_and_typedefs, filterTypedefs]

/-- Concrete image for witnesses: parseable, no debug data, one exported
function. -/
def sampleImage : LibraryImage :=
  { parseable := true
    library_name := some "libfoo.so.2".toList
    debugPresent := false
    exported_functions := ["foo_create"] }

/-- Concrete pipeline environment for witnesses. -/
def sampleEnv : PipelineEnv :=
  { fs := sampleFS
    image := sampleImage
    collectFrom := fun _ _ => ([], [])
    header_fn_typedefs := [] }

/-- Concrete arguments for witnesses: one library, no output override. -/
def sampleArgs : Args :=
  { library_path := "/usr/lib/libfoo.so.2".toList
    output := none
    skip_typedefs := false
    headers_given := false }

/-- Witness for C7 at the concrete environment: the degraded run succeeds
with a functions-only artifact named by the artifact-naming rule. -/
theorem no_debug_degrades_gracefully_witness :
    run_generation_pipeline sampleEnv sampleArgs =
      .ok { warnings := [PipelineError.debugInfoUnavailable]
            artifacts :=
              [{ filename :=
                   (determine_output sampleEnv.fs sampleArgs.output
                     sampleEnv.image.library_name
                     sampleArgs.library_path).output_filename
                 structures := []
                 typedefs := []
                 functions := sampleEnv.image.exported_functions }] } :=
  no_debug_degrades_gracefully sampleEnv sampleArgs rfl rfl rfl rfl

/-- Python `readlines` splitting: each element keeps its trailing
newline; a final segment without a newline is kept as-is. -/
def splitLinesAux : List Char → List Char → List (List Char)
  | [], acc => if acc.isEmpty then [] else [acc.reverse]
  | c :: rest, acc =>
      if c = '\n' then (acc.reverse ++ ['\n']) :: splitLinesAux rest []
      else splitLinesAux rest (c :: acc)

/-- Python `file_handle.readlines()` over in-memory content. -/
def readlines (s : List Char) : List (List Char) :=
  splitLinesAux s []

/-- The rewrite of src/pybindlib/paths.py line 64:
`file_handle.writelines(line.rstrip() + "\n" for line in lines)` applied
to in-memory content. -/
def stripContent (s : List Char) : List Char :=
  ((readlines s).map (fun line => pyRstrip line ++ ['\n'])).flatten

/-- Faults the two `open` calls of `strip_trailing_whitespace_from_file`
can raise. -/
inductive FileError where
  | notFound
  | permissionDenied
  | encodingError
deriving DecidableEq

/-- The try-block body of `strip_trailing_whitespace_from_file`
(src/pybindlib/paths.py lines 60-64): read all lines, then write each
rstripped line with one newline; a fault in either `open` escapes as an
error. -/
def stripFileBody (readResult : Except FileError (List Char))
    (writeFault : Option FileError) : Except FileError (List Char) :=
  match readResult with
  | .error e => .error e
  | .ok text =>
      match writeFault with
      | some e => .error e
      | none => .ok (stripContent text)

/-- `strip_trailing_whitespace_from_file` from src/pybindlib/paths.py
lines 49-66: the surrounding `try`/`except Exception` absorbs every error
of the body, logging it; the returned value is the exception the caller
observes (`none` = the function returns normally). -/
def strip_trailing_whitespace_from_file
    (readResult : Except FileError (List Char))
    (writeFault : Option FileError) : Option FileError :=
  match stripFileBody readResult writeFault with
  | .ok _ => none
  | .error _ => none

/-- C8: `strip_trailing_whitespace_from_file` never lets an exception reach
its caller: for every read outcome (including missing file, permission and
encoding errors) and every write fault, it returns normally. -/
theorem strip_never_raises (readResult : Except FileError (List Char))
    (writeFault : Option FileError) :
    strip_trailing_whitespace_from_file readResult writeFault = none := by
  unfold strip_trailing_whitespace_from_file stripFileBody
  cases readResult <;> cases writeFault <;> rfl

/-- Witness for C8 at concrete faults: a failed read and a permission
fault on the write are both absorbed. -/
theorem strip_never_raises_witness :
    strip_trailing_whitespace_from_file (.error .notFound) none = none ∧
    strip_trailing_whitespace_from_file (.ok "x \n".toList)
      (some .permissionDenied) = none :=
  ⟨strip_never_raises (.error .notFound) none,
   strip_never_raises (.ok "x \n".toList) (some .permissionDenied)⟩

/-- C9: evaluating the rewrite on the file content "abc\n\n" (one line,
then a blank line): the content is returned unchanged, so the rewritten
file ends in two newline characters, not exactly one, contradicting the
claim and the function's own docstring "Ensuring exactly one newline at
end of file". -/
theorem strip_keeps_extra_trailing_newline :
    stripContent "abc\n\n".toList = "abc\n\n".toList ∧
    ("abc\n\n".toList).getLast? = some '\n' ∧
    (("abc\n\n".toList).dropLast).getLast? = some '\n' := by
  decide

/-- Exceptions distinguished by `main`'s handlers: `KeyboardInterrupt` and
ordinary `Exception`s are caught; `SystemExit` (raised by `sys.exit` and
by argparse usage errors) derives from `BaseException` only and matches
neither handler. -/
inductive PyExc where
  | keyboardInterrupt
  | systemExit (code : Nat)
  | ordinary
deriving DecidableEq

/-- Outcome of a Python call: normal return or a raised exception. -/
inductive RunOutcome (α : Type) where
  | ret (a : α)
  | raised (e : PyExc)

/-- Observable result of `main()`: normal return, process termination with
an exit status (via `sys.exit` in a handler), or an exception propagated
to the caller (for `SystemExit` the interpreter then terminates the
process with that exception's code). -/
inductive MainOutcome where
  | normal
  | exitWith (code : Nat)
  | propagated (e : PyExc)
deriving DecidableEq

/-- `main` from src/pybindlib/cli.py lines 249-262: run `parse_arguments`
then `run_generation_pipeline` inside `try`; `except KeyboardInterrupt`
and `except Exception` both call `sys.exit(1)`; `SystemExit` matches
neither clause and propagates. -/
def main (parseResult : RunOutcome Args)
    (pipelineResult : Args → RunOutcome Unit) : MainOutcome :=
  match parseResult with
  | .raised .keyboardInterrupt => .exitWith 1
  | .raised (.systemExit c) => .propagated (.systemExit c)
  | .raised .ordinary => .exitWith 1
  | .ret args =>
      match pipelineResult args with
      | .ret _ => .normal
      | .raised .keyboardInterrupt => .exitWith 1
      | .raised (.systemExit c) => .propagated (.systemExit c)
      | .raised .ordinary => .exitWith 1

/-- C10 counterexample: when argument parsing fails with argparse's usage
error — `SystemExit` with status 2, as for a missing required
`LIBRARY_PATH` — `main` propagates that exception to its caller and the
process terminates with status 2, not 1. -/
theorem main_propagates_argparse_exit :
    main (.raised (.systemExit 2)) (fun _ => .ret ()) =
      .propagated (.systemExit 2) ∧
    ¬ main (.raised (.systemExit 2)) (fun _ => .ret ()) = .exitWith 1 := by
  exact ⟨rfl, by decide⟩

/-- C10 (amended): `main` absorbs `KeyboardInterrupt` and every ordinary
`Exception` raised in argument parsing or the pipeline and terminates the
process with exit status 1; `SystemExit` (argparse usage errors, status 2;
`--help`/`--version`, status 0) is caught by neither handler and
propagates unchanged, and a fault-free run returns normally. -/
theorem main_error_handling (pipelineResult : Args → RunOutcome Unit)
    (a : Args) (c : Nat) :
    main (.raised .keyboardInterrupt) pipelineResult = .exitWith 1 ∧
    main (.raised .ordinary) pipelineResult = .exitWith 1 ∧
    main (.ret a) (fun _ => .raised .keyboardInterrupt) = .exitWith 1 ∧
    main (.ret a) (fun _ => .raised .ordinary) = .exitWith 1 ∧
    main (.ret a) (fun _ => .ret ()) = .normal ∧
    main (.raised (.systemExit c)) pipelineResult =
      .propagated (.systemExit c) ∧
    main (.ret a) (fun _ => .raised (.systemExit c)) =
      .propagated (.systemExit c) :=
  ⟨rfl, rfl, rfl, rfl, rfl, rfl, rfl⟩

end PyBindLib
